import Mathlib

/-!
Verification development for the pyreadr write path
(`pyreadr/_pyreadr_writer.py` and `pyreadr/pyreadr.py`).

The Python code is shallowly embedded:
* pandas/NumPy values that can appear inside a column are the inductive
  `PyVal`; their Python runtime types (`type(x)`) are `PyType`.
* declared column dtypes (`df.dtypes`) are the inductive `DType`.
* a pandas `DataFrame` is a list of named, typed columns; indexing is the
  default `RangeIndex`, so positional index and label coincide for the
  original frame (but *not* after `dropna`, which keeps the original labels —
  this is exactly what `col[0]` in the source depends on).
* Python functions that can raise become `Except String`-valued functions;
  the error string records the Python exception.
* the external librdata `Writer` is an oracle `WriterCall → Bool` telling
  which calls succeed; `write_r` produces the trace of calls it issued.
-/

set_option autoImplicit false

namespace Pyreadr

/-- Python runtime types (`type(x)`) relevant to
`get_pyreadr_column_types` (`_pyreadr_writer.py` lines 17-21, 83-96).
`pyFloat` covers both builtin `float` (= the deprecated `np.float` listed in
`float_types`) and `np.float64`, which numpy makes compare/hash equal to
`np.dtype('float64')`; builtin `int` (`pyInt`) is in *none* of the module
sets, so it falls through to the generic `OBJECT` case. -/
inductive PyType
  | npInt32 | npInt16 | npInt8 | npUInt8 | npUInt16
  | npInt64 | npUInt64 | npUInt32 | pyFloat
  | pyInt | pyBool | pyStr | pyDate | pyDatetime | pyOther
deriving DecidableEq, Repr

/-- Values stored in a pandas column. `noneV` stands for any entry `x`
with `pd.isna(x)` true (Python `None`, `np.nan`, `pd.NaT`). A non-NaN
float is opaque (`floatV id`): no claim computes with float payloads. -/
inductive PyVal
  | noneV
  | npInt32V (n : Int) | npInt16V (n : Int) | npInt8V (n : Int)
  | npUInt8V (n : Int) | npUInt16V (n : Int)
  | npInt64V (n : Int) | npUInt64V (n : Int) | npUInt32V (n : Int)
  | floatV (id : Nat)
  | intV (n : Int)
  | boolV (b : Bool)
  | strV (s : String)
  | dateV (y m d : Int)
  | datetimeV (y mo d hh mi ss : Int)
  | otherV (id : Nat)
deriving DecidableEq, Repr

/-- `type(x)` for an embedded value. -/
def typeOf : PyVal → PyType
  | .noneV => .pyOther
  | .npInt32V _ => .npInt32
  | .npInt16V _ => .npInt16
  | .npInt8V _ => .npInt8
  | .npUInt8V _ => .npUInt8
  | .npUInt16V _ => .npUInt16
  | .npInt64V _ => .npInt64
  | .npUInt64V _ => .npUInt64
  | .npUInt32V _ => .npUInt32
  | .floatV _ => .pyFloat
  | .intV _ => .pyInt
  | .boolV _ => .pyBool
  | .strV _ => .pyStr
  | .dateV _ _ _ => .pyDate
  | .datetimeV _ _ _ _ _ _ => .pyDatetime
  | .otherV _ => .pyOther

/-- `pd.isna(x)` for an embedded value. -/
def isNA : PyVal → Bool
  | .noneV => true
  | _ => false

/-- Declared column dtypes (`df.dtypes` entries). `categorical` carries the
dtype recovered by `np.asarray(df[col_name]).dtype` (source line 48). -/
inductive DType
  | int32 | int16 | int8 | uint8 | uint16
  | int64 | uint64 | uint32 | float64
  | bool | datetime64ns | object
  | categorical (underlying : DType)
  | other
deriving DecidableEq, Repr

/-- A pandas column: name, declared dtype, values (default `RangeIndex`). -/
structure Column where
  name : String
  dtype : DType
  values : List PyVal
deriving DecidableEq, Repr

/-- A pandas data frame: ordered columns. -/
structure DataFrame where
  cols : List Column
deriving DecidableEq, Repr

/-- `df.shape[0]`: common length of the columns (0 for a frame with no
columns). -/
def dfShape0 (df : DataFrame) : Nat :=
  match df.cols with
  | [] => 0
  | c :: _ => c.values.length

/-- Dtype-level membership in the module set `int_types`
(`_pyreadr_writer.py` lines 17-18). -/
def int_types : DType → Bool
  | .int32 | .int16 | .int8 | .uint8 | .uint16 => true
  | _ => false

/-- Dtype-level membership in the module set `float_types` (lines 19-20). -/
def float_types : DType → Bool
  | .int64 | .uint64 | .uint32 | .float64 => true
  | _ => false

/-- Runtime-type membership in `int_types`: only the numpy scalar classes
are members; builtin `int` is not. -/
def runtimeIntType : PyType → Bool
  | .npInt32 | .npInt16 | .npInt8 | .npUInt8 | .npUInt16 => true
  | _ => false

/-- Runtime-type membership in `float_types`: `np.float` in the source set
*is* builtin `float`, so `pyFloat` is a member. -/
def runtimeFloatType : PyType → Bool
  | .npInt64 | .npUInt64 | .npUInt32 | .pyFloat => true
  | _ => false

/-- Category unwrap (source lines 47-48). -/
def unwrapCategorical : DType → DType
  | .categorical u => u
  | d => d

/-- Shared runtime-type dispatch of `get_pyreadr_column_types`
(source lines 83-96): `curtype` against the module sets. -/
def resolveRuntime (t : PyType) : String :=
  if runtimeIntType t then "INTEGER"
  else if runtimeFloatType t then "NUMERIC"
  else if t = PyType.pyBool then "LOGICAL"
  else if t = PyType.pyStr then "CHARACTER"
  else if t = PyType.pyDate then "DATE"
  else if t = PyType.pyDatetime then "DATETIME"
  else "OBJECT"

/-- Loop body of `get_pyreadr_column_types` (source lines 44-100) for one
column: semantic tag and has-missing flag, or the Python exception.
Two `KeyError` paths are inherited from the source:
* zero rows, object dtype, no missing entry: `type(df[col_name][0])`
  (line 77) indexes label 0 of an empty series;
* object dtype with missing entries where row 0 is missing: after
  `col = df[col_name].dropna()` (line 66) the series keeps its original
  labels, so `col[0]` (line 68) raises if label 0 was dropped. -/
def classifyColumn (c : Column) : Except String (String × Bool) :=
  let colType := unwrapCategorical c.dtype
  if int_types colType then .ok ("INTEGER", false)
  else if float_types colType then .ok ("NUMERIC", false)
  else if colType = DType.bool then .ok ("LOGICAL", false)
  else if colType = DType.datetime64ns then
    .ok ("DATETIME", c.values.any isNA)
  else if colType = DType.object then
    if c.values.any isNA then
      let col := c.values.filter (fun v => !(isNA v))
      if col.length ≠ 0 then
        match c.values with
        | [] => .error "KeyError: 0"
        | v0 :: _ =>
          if isNA v0 then .error "KeyError: 0"
          else
            let curtype := typeOf v0
            if !(col.all (fun x => typeOf x = curtype)) then .ok ("OBJECT", true)
            else .ok (resolveRuntime curtype, true)
      else .ok ("LOGICAL", true)
    else
      match c.values with
      | [] => .error "KeyError: 0"
      | v0 :: _ =>
        let curtype := typeOf v0
        if !(c.values.all (fun x => typeOf x = curtype)) then .ok ("OBJECT", false)
        else .ok (resolveRuntime curtype, false)
  else .ok ("OBJECT", false)

/-- `OrderedDict` assignment `d[k] = v`: overwrite in place if the key is
present, else append. -/
def odInsert {α : Type} (k : String) (v : α) : List (String × α) → List (String × α)
  | [] => [(k, v)]
  | (k', v') :: rest => if k' = k then (k, v) :: rest else (k', v') :: odInsert k v rest

/-- `OrderedDict` lookup `d[k]` (as an `Option`; `none` is a `KeyError`). -/
def odGet {α : Type} (k : String) : List (String × α) → Option α
  | [] => none
  | (k', v') :: rest => if k' = k then some v' else odGet k rest

/-- Recursion of `get_pyreadr_column_types` over the columns, accumulating
the `OrderedDict` of tags and the positional has-missing list. -/
def getTypesGo : List Column → List (String × String) → List Bool →
    Except String (List (String × String) × List Bool)
  | [], acc, hm => .ok (acc, hm)
  | c :: rest, acc, hm =>
    match classifyColumn c with
    | .error e => .error e
    | .ok (tag, m) => getTypesGo rest (odInsert c.name tag acc) (hm ++ [m])

/-- `get_pyreadr_column_types` (source lines 31-101): tags keyed by column
name plus the positional has-missing list, or the Python exception. -/
def get_pyreadr_column_types (df : DataFrame) :
    Except String (List (String × String) × List Bool) :=
  getTypesGo df.cols [] []

/-- The module dict `pyreadr_to_librdata_types` (source lines 23-26), as a
lookup returning `none` on a `KeyError`. -/
def pyreadr_to_librdata_types (t : String) : Option String :=
  if t = "INTEGER" then some "INTEGER"
  else if t = "NUMERIC" then some "NUMERIC"
  else if t = "LOGICAL" then some "LOGICAL"
  else if t = "CHARACTER" then some "CHARACTER"
  else if t = "OBJECT" then some "CHARACTER"
  else if t = "DATE" then some "CHARACTER"
  else if t = "DATETIME" then some "CHARACTER"
  else none

/-- `pyreadr_types_to_librdata_types` (source lines 104-113): map every
tag through the fixed dict; an unknown tag raises `KeyError`. -/
def pyreadr_types_to_librdata_types :
    List (String × String) → Except String (List (String × String))
  | [] => .ok []
  | (k, v) :: rest =>
    match pyreadr_to_librdata_types v with
    | none => .error ("KeyError: " ++ v)
    | some lv =>
      match pyreadr_types_to_librdata_types rest with
      | .error e => .error e
      | .ok r => .ok ((k, lv) :: r)

/-- `librdata_min_integer` (source line 28). -/
def librdata_min_integer : Int := -2147483648

/-- Wrap an integer into a signed 32-bit value, as `astype(np.int32)`
does on overflow. -/
def toInt32 (n : Int) : Int := (n + 2147483648) % 4294967296 - 2147483648

/-- `astype(np.int32)` on one element: integer-valued scalars wrap,
booleans become 0/1, anything else raises. -/
def astypeInt32 : PyVal → Except String PyVal
  | .npInt32V n => .ok (.npInt32V (toInt32 n))
  | .npInt16V n => .ok (.npInt32V (toInt32 n))
  | .npInt8V n => .ok (.npInt32V (toInt32 n))
  | .npUInt8V n => .ok (.npInt32V (toInt32 n))
  | .npUInt16V n => .ok (.npInt32V (toInt32 n))
  | .npInt64V n => .ok (.npInt32V (toInt32 n))
  | .npUInt64V n => .ok (.npInt32V (toInt32 n))
  | .npUInt32V n => .ok (.npInt32V (toInt32 n))
  | .intV n => .ok (.npInt32V (toInt32 n))
  | .boolV b => .ok (.npInt32V (if b then 1 else 0))
  | _ => .error "cannot convert to int32"

/-- `pd_series.astype(np.int32)` over the whole column. -/
def astypeInt32List : List PyVal → Except String (List PyVal)
  | [] => .ok []
  | v :: rest =>
    match astypeInt32 v with
    | .error e => .error e
    | .ok w =>
      match astypeInt32List rest with
      | .error e => .error e
      | .ok ws => .ok (w :: ws)

/-- `pd_series.loc[pd.isna(pd_series)] = sentinel` (source lines 127, 133):
replace every missing entry. -/
def replaceNA (sentinel : PyVal) (vals : List PyVal) : List PyVal :=
  vals.map (fun v => if isNA v then sentinel else v)

/-- Python `str(x)` (external builtin), made executable: the canonical
textual form of each embedded value. -/
def pyStrOf : PyVal → String
  | .noneV => "None"
  | .npInt32V n => toString n
  | .npInt16V n => toString n
  | .npInt8V n => toString n
  | .npUInt8V n => toString n
  | .npUInt16V n => toString n
  | .npInt64V n => toString n
  | .npUInt64V n => toString n
  | .npUInt32V n => toString n
  | .floatV id => "float#" ++ toString id
  | .intV n => toString n
  | .boolV b => if b then "True" else "False"
  | .strV s => s
  | .dateV y m d => toString y ++ "-" ++ toString m ++ "-" ++ toString d
  | .datetimeV y mo d hh mi ss =>
      toString y ++ "-" ++ toString mo ++ "-" ++ toString d ++ " " ++
      toString hh ++ ":" ++ toString mi ++ ":" ++ toString ss
  | .otherV id => "object#" ++ toString id

/-- `x.strftime(fmt)` (external stdlib), abstracted to an executable
pairing of the format string with the date fields; values without a
`strftime` method raise `AttributeError`. -/
def strftimeApply (fmt : String) : PyVal → Except String PyVal
  | .dateV y m d =>
      .ok (.strV (fmt ++ "|" ++ toString y ++ "-" ++ toString m ++ "-" ++ toString d))
  | .datetimeV y mo d hh mi ss =>
      .ok (.strV (fmt ++ "|" ++ toString y ++ "-" ++ toString mo ++ "-" ++ toString d ++
        " " ++ toString hh ++ ":" ++ toString mi ++ ":" ++ toString ss))
  | _ => .error "AttributeError: strftime"

/-- `pd_series.loc[pd.notnull(pd_series)] = pd_series.loc[...].apply(f)`
(source lines 138, 144, 147): apply `f` to the non-missing entries, keep
missing entries unchanged. -/
def applyNotNull (f : PyVal → Except String PyVal) :
    List PyVal → Except String (List PyVal)
  | [] => .ok []
  | v :: rest =>
    match (if isNA v then .ok v else f v) with
    | .error e => .error e
    | .ok w =>
      match applyNotNull f rest with
      | .error e => .error e
      | .ok ws => .ok (w :: ws)

/-- `transform_data` (source lines 116-152). The caller passes a *copy*
of the column (`write_r` line 180); the returned list is the value of the
local `pd_series` after the in-place sentinel writes and the `astype`
rebinding. The replaced sentinel is the Python int `librdata_min_integer`
(`intV`), subsequently narrowed by `astype(np.int32)`. -/
def transform_data (vals : List PyVal) (dtype : String) (has_missing : Bool)
    (dateformat datetimeformat : String) : Except String (List PyVal) :=
  if dtype = "INTEGER" then
    astypeInt32List
      (if has_missing then replaceNA (PyVal.intV librdata_min_integer) vals else vals)
  else if dtype = "NUMERIC" then .ok vals
  else if dtype = "LOGICAL" then
    astypeInt32List
      (if has_missing then replaceNA (PyVal.intV librdata_min_integer) vals else vals)
  else if dtype = "CHARACTER" then .ok vals
  else if dtype = "OBJECT" then
    applyNotNull (fun v => .ok (.strV (pyStrOf v))) vals
  else if dtype = "DATE" then
    applyNotNull (strftimeApply dateformat) vals
  else if dtype = "DATETIME" then
    applyNotNull (strftimeApply datetimeformat) vals
  else .error "Unkown pyreadr data type"

/-- One call on the external librdata `Writer` capability
(`_pyreadr_writer.py` lines 172-187, contract in the spec). -/
inductive WriterCall
  | openW (path fileFormat : String)
  | setRowCount (n : Nat)
  | setTableName (name : String)
  | addColumn (name : String) (primitive : String)
  | insertValue (rowIdx colIdx : Nat) (v : PyVal) (primitive : String)
  | closeW
deriving DecidableEq, Repr

/-- The external Storage Writer: which calls succeed. A `false` models the
call raising after being issued. -/
abbrev Oracle := WriterCall → Bool

/-- Issue a sequence of writer calls one after another; a failing call is
the last one issued and yields an error, aborting the rest. -/
def tryCalls (w : Oracle) : List WriterCall → List WriterCall × Option String
  | [] => ([], none)
  | c :: cs =>
    if w c then
      let r := tryCalls w cs
      (c :: r.1, r.2)
    else ([c], some "writer call failed")

/-- `for col_name in col_names: self.add_column(str(col_name), curtype)`
(source lines 175-177), with the `librdata_types[col_name]` lookup. -/
def addColumnLoop (w : Oracle) (lt : List (String × String)) :
    List String → List WriterCall × Option String
  | [] => ([], none)
  | n :: rest =>
    match odGet n lt with
    | none => ([], some ("KeyError: " ++ n))
    | some ty =>
      if w (.addColumn n ty) then
        let r := addColumnLoop w lt rest
        (WriterCall.addColumn n ty :: r.1, r.2)
      else ([WriterCall.addColumn n ty], some "writer call failed")

/-- The per-cell calls for one column (source lines 184-185): original row
indices from `enumerate(tcol)`, original column index. -/
def insertCallsFor (colIdx : Nat) (primitive : String) (vals : List PyVal) :
    List WriterCall :=
  vals.enum.map (fun p => WriterCall.insertValue p.1 colIdx p.2 primitive)

/-- `for indx, column in enumerate(df): ...` (source lines 179-185): copy
the column, transform it, look up the storage primitive, insert each cell.
The copy (`df[column].copy()`, line 180) is why the in-place writes of
`transform_data` never reach the caller's frame. -/
def columnLoop (w : Oracle) (pt lt : List (String × String)) (hm : List Bool)
    (dateformat datetimeformat : String) :
    List Column → Nat → List WriterCall × Option String
  | [], _ => ([], none)
  | c :: rest, idx =>
    match odGet c.name pt with
    | none => ([], some ("KeyError: " ++ c.name))
    | some pty =>
      match transform_data c.values pty (hm.getD idx false) dateformat datetimeformat with
      | .error e => ([], some e)
      | .ok tcol =>
        match odGet c.name lt with
        | none => ([], some ("KeyError: " ++ c.name))
        | some lty =>
          let r := tryCalls w (insertCallsFor idx lty tcol)
          match r.2 with
          | some m => (r.1, some m)
          | none =>
            let r2 := columnLoop w pt lt hm dateformat datetimeformat rest (idx + 1)
            (r.1 ++ r2.1, r2.2)

/-- Result of `PyreadrWriter.write_r`: the caller's frame after the call,
the trace of writer calls issued, and the raised exception if any. -/
structure WriteResult where
  callerDf : DataFrame
  trace : List WriterCall
  err : Option String
deriving DecidableEq, Repr

/-- `PyreadrWriter.write_r` (source lines 157-187). Classification and the
tag-to-primitive mapping run before any writer call; then `open`,
`set_row_count`, `set_table_name`, the `add_column` loop, the per-column
insert loop, and `close`, each exception aborting the remainder. The
caller's frame is returned unchanged on every path because the insert loop
transforms `df[column].copy()`, never `df[column]` itself. -/
def write_r (w : Oracle) (path fileFormat : String) (df : DataFrame)
    (df_name dateformat datetimeformat : String) : WriteResult :=
  match get_pyreadr_column_types df with
  | .error e => ⟨df, [], some e⟩
  | .ok (pt, hm) =>
    match pyreadr_types_to_librdata_types pt with
    | .error e => ⟨df, [], some e⟩
    | .ok lt =>
      let r1 := tryCalls w
        [WriterCall.openW path fileFormat, WriterCall.setRowCount (dfShape0 df),
         WriterCall.setTableName df_name]
      match r1.2 with
      | some m => ⟨df, r1.1, some m⟩
      | none =>
        let r2 := addColumnLoop w lt (df.cols.map (fun c => c.name))
        match r2.2 with
        | some m => ⟨df, r1.1 ++ r2.1, some m⟩
        | none =>
          let r3 := columnLoop w pt lt hm dateformat datetimeformat df.cols 0
          match r3.2 with
          | some m => ⟨df, r1.1 ++ r2.1 ++ r3.1, some m⟩
          | none =>
            let r4 := tryCalls w [WriterCall.closeW]
            ⟨df, r1.1 ++ r2.1 ++ r3.1 ++ r4.1, r4.2⟩

/-- Modelled from the spec (§4.4): the `add_column` declarations, one per
column, strictly in the table's column order. -/
def specAddCols (lt : List (String × String)) :
    List String → Except String (List WriterCall)
  | [] => .ok []
  | n :: rest =>
    match odGet n lt with
    | none => .error ("KeyError: " ++ n)
    | some ty =>
      match specAddCols lt rest with
      | .error e => .error e
      | .ok cs => .ok (WriterCall.addColumn n ty :: cs)

/-- Modelled from the spec (§4.4): for every column in order, every row's
transformed value delivered per cell with the original row/column
indices. -/
def specInserts (pt lt : List (String × String)) (hm : List Bool)
    (dateformat datetimeformat : String) :
    List Column → Nat → Except String (List WriterCall)
  | [], _ => .ok []
  | c :: rest, idx =>
    match odGet c.name pt with
    | none => .error ("KeyError: " ++ c.name)
    | some pty =>
      match transform_data c.values pty (hm.getD idx false) dateformat datetimeformat with
      | .error e => .error e
      | .ok tcol =>
        match odGet c.name lt with
        | none => .error ("KeyError: " ++ c.name)
        | some lty =>
          match specInserts pt lt hm dateformat datetimeformat rest (idx + 1) with
          | .error e => .error e
          | .ok cs => .ok (insertCallsFor idx lty tcol ++ cs)

/-- Modelled from the spec (§4.4, claim C7): the complete writer-call
sequence the orchestrator must issue — open, row count, table name, the
column declarations in order, all per-cell insertions, close. -/
def specWriterSequence (df : DataFrame) (path fileFormat df_name
    dateformat datetimeformat : String) : Except String (List WriterCall) :=
  match get_pyreadr_column_types df with
  | .error e => .error e
  | .ok (pt, hm) =>
    match pyreadr_types_to_librdata_types pt with
    | .error e => .error e
    | .ok lt =>
      match specAddCols lt (df.cols.map (fun c => c.name)) with
      | .error e => .error e
      | .ok addCalls =>
        match specInserts pt lt hm dateformat datetimeformat df.cols 0 with
        | .error e => .error e
        | .ok insCalls =>
          .ok ([WriterCall.openW path fileFormat,
                WriterCall.setRowCount (dfShape0 df),
                WriterCall.setTableName df_name] ++ addCalls ++ insCalls ++
               [WriterCall.closeW])

/-- A Python object reaching the user-facing functions of `pyreadr.py`:
a pandas DataFrame, a string, or anything else. -/
inductive PyObj
  | pdDataFrame (df : DataFrame)
  | pyStrObj (s : String)
  | otherObj (id : Nat)
deriving DecidableEq, Repr

/-- `isinstance(x, pd.DataFrame)`. -/
def isDataFrameObj : PyObj → Bool
  | .pdDataFrame _ => true
  | _ => false

/-- `isinstance(x, str)`. -/
def isStrObj : PyObj → Bool
  | .pyStrObj _ => true
  | _ => false

/-- `pyreadr.write_rdata` (`pyreadr.py` lines 84-119): validate the name,
the frame and the path (in that order, all before any writer interaction),
then delegate to `write_r` with the `rdata` format. `os.path.expanduser`
is the identity here. Returns the writer-call trace and the error. -/
def write_rdata (w : Oracle) (path df : PyObj)
    (df_name dateformat datetimeformat : String) :
    List WriterCall × Option String :=
  if df_name = "" then ([], some "df_name must be a valid string")
  else
    match df with
    | .pdDataFrame d =>
      match path with
      | .pyStrObj p =>
        let r := write_r w p "rdata" d df_name dateformat datetimeformat
        (r.trace, r.err)
      | _ => ([], some "path must be a string!")
    | _ => ([], some "df must be a pandas data frame")

/-- `pyreadr.write_rds` (`pyreadr.py` lines 122-150): validate the frame
and the path before any writer interaction, then delegate to `write_r`
with the `rds` format and an empty object name. -/
def write_rds (w : Oracle) (path df : PyObj)
    (dateformat datetimeformat : String) :
    List WriterCall × Option String :=
  match df with
  | .pdDataFrame d =>
    match path with
    | .pyStrObj p =>
      let r := write_r w p "rds" d "" dateformat datetimeformat
      (r.trace, r.err)
    | _ => ([], some "path must be a string!")
  | _ => ([], some "df must be a pandas data frame")

/-! ### Helper lemmas -/

theorem listPre_extend {α : Type} {a b : List α} (c : List α) (h : a <+: b) :
    a <+: b ++ c := by
  obtain ⟨t, ht⟩ := h
  exact ⟨t ++ c, by rw [← List.append_assoc, ht]⟩

theorem listPre_mono {α : Type} (a : List α) {b c : List α} (h : b <+: c) :
    a ++ b <+: a ++ c := by
  obtain ⟨t, ht⟩ := h
  exact ⟨t, by rw [List.append_assoc, ht]⟩

theorem tryCalls_spec (w : Oracle) (cs : List WriterCall) :
    (tryCalls w cs).1 <+: cs ∧ ((tryCalls w cs).2 = none → (tryCalls w cs).1 = cs) := by
  induction cs with
  | nil => exact ⟨⟨[], rfl⟩, fun _ => rfl⟩
  | cons c rest ih =>
    by_cases hw : w c
    · obtain ⟨⟨t, ht⟩, hcomp⟩ := ih
      refine ⟨⟨t, ?_⟩, ?_⟩
      · simp only [tryCalls, hw, if_true, List.cons_append, List.cons.injEq, true_and]
        exact ht
      · intro h2
        simp only [tryCalls, hw, if_true] at h2 ⊢
        rw [hcomp h2]
    · refine ⟨⟨rest, ?_⟩, ?_⟩
      · simp [tryCalls, hw]
      · intro h2; simp [tryCalls, hw] at h2

theorem astypeInt32List_getElem (l : List PyVal) :
    ∀ (out : List PyVal), astypeInt32List l = .ok out →
    ∀ (i : Nat) (v : PyVal), l[i]? = some v →
    ∃ p, astypeInt32 v = .ok p ∧ out[i]? = some p := by
  induction l with
  | nil => intro out _ i v hv; simp at hv
  | cons a rest ih =>
    intro out h i v hv
    simp only [astypeInt32List] at h
    cases ha : astypeInt32 a with
    | error e => rw [ha] at h; simp at h
    | ok p0 =>
      rw [ha] at h
      cases hrest : astypeInt32List rest with
      | error e => rw [hrest] at h; simp at h
      | ok ws =>
        rw [hrest] at h
        simp only [Except.ok.injEq] at h
        subst h
        cases i with
        | zero =>
          simp only [List.getElem?_cons_zero, Option.some.injEq] at hv
          subst hv
          exact ⟨p0, ha, by simp⟩
        | succ n =>
          simp only [List.getElem?_cons_succ] at hv ⊢
          exact ih ws hrest n v hv

/-! ### Claims -/

/-- C1: the spec's zero-row, object-typed column is claimed to fall into
the all-missing `LOGICAL` fallback with has-missing `False` and an empty
transformed sequence. The code instead raises: with no missing entries
observed, `type(df[col_name][0])` (source line 77) indexes label 0 of an
empty series, a `KeyError`. -/
theorem c1_zero_row_object_column_raises :
    get_pyreadr_column_types ⟨[⟨"a", DType.object, []⟩]⟩ =
      Except.error "KeyError: 0" := rfl

/-- C2: the claim says the reference runtime type is that of the first
non-missing entry regardless of which rows were missing. The code takes
`col[0]` after `dropna()` (source lines 66-68), a *label*-based lookup on
a series that kept its original index, so a column whose first row is
missing raises `KeyError` instead of classifying as `CHARACTER`. -/
theorem c2_first_row_missing_raises :
    classifyColumn ⟨"a", DType.object, [PyVal.noneV, PyVal.strV "x", PyVal.strV "y"]⟩ =
      Except.error "KeyError: 0" := rfl

/-- C3: classification is claimed total, but an object column whose first
entry is missing (and a zero-row object column, see C1) makes
`get_pyreadr_column_types` raise `KeyError`. -/
theorem c3_classification_not_total :
    get_pyreadr_column_types ⟨[⟨"b", DType.object, [PyVal.noneV, PyVal.boolV true]⟩]⟩ =
      Except.error "KeyError: 0" := rfl

/-- C6: the column `[1, None, 3]` whose non-missing elements are narrow
(32-bit) integers classifies as `INTEGER` with has-missing true, and
transformation yields `[1, -2147483648, 3]`; the mapped storage primitive
is `INTEGER`. -/
theorem c6_concrete_integer_with_missing :
    get_pyreadr_column_types
        ⟨[⟨"a", DType.object, [PyVal.npInt32V 1, PyVal.noneV, PyVal.npInt32V 3]⟩]⟩ =
      Except.ok ([("a", "INTEGER")], [true]) ∧
    transform_data [PyVal.npInt32V 1, PyVal.noneV, PyVal.npInt32V 3] "INTEGER" true
        "%Y-%m-%d" "%Y-%m-%d %H:%M:%S" =
      Except.ok [PyVal.npInt32V 1, PyVal.npInt32V (-2147483648), PyVal.npInt32V 3] ∧
    pyreadr_to_librdata_types "INTEGER" = some "INTEGER" :=
  ⟨rfl, rfl, rfl⟩

/-- C9: the tag-to-primitive mapper is a total fixed function on the seven
semantic tags — `INTEGER`, `NUMERIC`, `LOGICAL` map to themselves and
`CHARACTER`, `OBJECT`, `DATE`, `DATETIME` collapse to `CHARACTER` — and
every other tag is the sole failure path (a `KeyError`, modelled as
`none`). -/
theorem c9_mapper_total_fixed :
    (pyreadr_to_librdata_types "INTEGER" = some "INTEGER" ∧
     pyreadr_to_librdata_types "NUMERIC" = some "NUMERIC" ∧
     pyreadr_to_librdata_types "LOGICAL" = some "LOGICAL" ∧
     pyreadr_to_librdata_types "CHARACTER" = some "CHARACTER" ∧
     pyreadr_to_librdata_types "OBJECT" = some "CHARACTER" ∧
     pyreadr_to_librdata_types "DATE" = some "CHARACTER" ∧
     pyreadr_to_librdata_types "DATETIME" = some "CHARACTER") ∧
    ∀ t : String,
      t ∉ (["INTEGER", "NUMERIC", "LOGICAL", "CHARACTER", "OBJECT", "DATE",
            "DATETIME"] : List String) →
      pyreadr_to_librdata_types t = none := by
  refine ⟨⟨rfl, rfl, rfl, rfl, rfl, rfl, rfl⟩, ?_⟩
  intro t ht
  simp only [List.mem_cons, List.not_mem_nil, or_false, not_or] at ht
  obtain ⟨h1, h2, h3, h4, h5, h6, h7⟩ := ht
  simp [pyreadr_to_librdata_types, h1, h2, h3, h4, h5, h6, h7]

/-- Witness for C9 at the unrecognized tag `"FACTOR"`. -/
theorem c9_mapper_witness :
    ("FACTOR" ∉ (["INTEGER", "NUMERIC", "LOGICAL", "CHARACTER", "OBJECT", "DATE",
                  "DATETIME"] : List String)) ∧
    pyreadr_to_librdata_types "FACTOR" = none :=
  ⟨by decide, c9_mapper_total_fixed.2 "FACTOR" (by decide)⟩

/-- C4: `write_r` never mutates the caller's frame — the column handed to
`transform_data` is `df[column].copy()` (source line 180), so the
transformer's in-place sentinel writes land on a private copy and the
caller's table holds the same values after the call, whether it succeeded
or failed at any step. -/
theorem c4_write_r_preserves_caller_frame (w : Oracle) (path fileFormat : String)
    (df : DataFrame) (df_name dateformat datetimeformat : String) :
    (write_r w path fileFormat df df_name dateformat datetimeformat).callerDf = df := by
  simp only [write_r]
  repeat' split
  all_goals rfl

/-- C5: for a column tagged `INTEGER` or `LOGICAL` with has-missing true,
`transform_data` first replaces every missing entry with the sentinel
`librdata_min_integer` and then narrows with `astype(np.int32)`, so every
missing input position holds exactly the sentinel in the output; the
tag-to-primitive mapper consumes only the tag (missingness is not among
its inputs), and maps both tags to themselves. -/
theorem c5_missing_becomes_sentinel (vals : List PyVal) (dtype : String)
    (out : List PyVal) (dateformat datetimeformat : String)
    (hdt : dtype = "INTEGER" ∨ dtype = "LOGICAL")
    (hok : transform_data vals dtype true dateformat datetimeformat = .ok out) :
    (∀ (i : Nat) (v : PyVal), vals[i]? = some v → isNA v = true →
      out[i]? = some (PyVal.npInt32V librdata_min_integer)) ∧
    pyreadr_to_librdata_types dtype = some dtype := by
  have hcore : astypeInt32List (replaceNA (PyVal.intV librdata_min_integer) vals) =
      .ok out := by
    rcases hdt with h | h <;> subst h <;> simpa [transform_data] using hok
  constructor
  · intro i v hv hna
    have hrep : (replaceNA (PyVal.intV librdata_min_integer) vals)[i]? =
        some (PyVal.intV librdata_min_integer) := by
      simp [replaceNA, List.getElem?_map, hv, hna]
    obtain ⟨p, hp, hout⟩ := astypeInt32List_getElem _ _ hcore i _ hrep
    have hval : astypeInt32 (PyVal.intV librdata_min_integer) =
        .ok (PyVal.npInt32V librdata_min_integer) := rfl
    rw [hval] at hp
    simp only [Except.ok.injEq] at hp
    rw [hp]
    exact hout
  · rcases hdt with h | h <;> subst h <;> rfl

/-- Witness for C5: `[None, 5]` tagged `INTEGER` with has-missing true. -/
theorem c5_missing_becomes_sentinel_witness :
    transform_data [PyVal.noneV, PyVal.npInt32V 5] "INTEGER" true "%Y-%m-%d" "%H" =
      Except.ok [PyVal.npInt32V librdata_min_integer, PyVal.npInt32V 5] ∧
    ([PyVal.npInt32V librdata_min_integer, PyVal.npInt32V 5] : List PyVal)[0]? =
      some (PyVal.npInt32V librdata_min_integer) :=
  ⟨rfl,
   (c5_missing_becomes_sentinel [PyVal.noneV, PyVal.npInt32V 5] "INTEGER"
      [PyVal.npInt32V librdata_min_integer, PyVal.npInt32V 5] "%Y-%m-%d" "%H"
      (Or.inl rfl) rfl).1 0 PyVal.noneV rfl rfl⟩

/-- C10: a column whose declared dtype is narrow-integer, wide-numeric or
boolean is classified purely from the dtype (source lines 50-55): the
has-missing flag stays `False` even if the column contains NaN entries,
and the `NUMERIC` transform is the identity, so NaN entries pass through
unchanged with no sentinel substitution. -/
theorem c10_nonobject_dtype_no_missing_flag (c : Column)
    (h : int_types c.dtype = true ∨ float_types c.dtype = true ∨
         c.dtype = DType.bool) :
    (∃ tag, classifyColumn c = .ok (tag, false)) ∧
    (∀ (vals : List PyVal) (hm : Bool) (dateformat datetimeformat : String),
      transform_data vals "NUMERIC" hm dateformat datetimeformat = .ok vals) := by
  constructor
  · obtain ⟨name, dt, vals⟩ := c
    cases dt with
    | int32 => exact ⟨"INTEGER", rfl⟩
    | int16 => exact ⟨"INTEGER", rfl⟩
    | int8 => exact ⟨"INTEGER", rfl⟩
    | uint8 => exact ⟨"INTEGER", rfl⟩
    | uint16 => exact ⟨"INTEGER", rfl⟩
    | int64 => exact ⟨"NUMERIC", rfl⟩
    | uint64 => exact ⟨"NUMERIC", rfl⟩
    | uint32 => exact ⟨"NUMERIC", rfl⟩
    | float64 => exact ⟨"NUMERIC", rfl⟩
    | bool => exact ⟨"LOGICAL", rfl⟩
    | datetime64ns => simp [int_types, float_types] at h
    | object => simp [int_types, float_types] at h
    | categorical u => simp [int_types, float_types] at h
    | other => simp [int_types, float_types] at h
  · intro vals hm dateformat datetimeformat
    rfl

/-- Witness for C10: a `float64` column containing only NaN. -/
theorem c10_nonobject_dtype_witness :
    float_types DType.float64 = true ∧
    ((∃ tag, classifyColumn ⟨"x", DType.float64, [PyVal.noneV]⟩ = .ok (tag, false)) ∧
     (∀ (vals : List PyVal) (hm : Bool) (dateformat datetimeformat : String),
       transform_data vals "NUMERIC" hm dateformat datetimeformat = .ok vals)) :=
  ⟨rfl, c10_nonobject_dtype_no_missing_flag ⟨"x", DType.float64, [PyVal.noneV]⟩
    (Or.inr (Or.inl rfl))⟩

/-- C8: both user-facing write operations validate before touching the
Storage Writer — `write_rdata` rejects an empty object name, a
non-DataFrame table or a non-string path, `write_rds` the latter two, in
each case raising with an empty writer-call trace (no open, declaration,
insertion or close was issued). -/
theorem c8_validation_before_writer (w : Oracle) (path dfo : PyObj)
    (df_name dateformat datetimeformat : String) :
    ((df_name = "" ∨ isDataFrameObj dfo = false ∨ isStrObj path = false) →
      (write_rdata w path dfo df_name dateformat datetimeformat).1 = [] ∧
      (write_rdata w path dfo df_name dateformat datetimeformat).2 ≠ none) ∧
    ((isDataFrameObj dfo = false ∨ isStrObj path = false) →
      (write_rds w path dfo dateformat datetimeformat).1 = [] ∧
      (write_rds w path dfo dateformat datetimeformat).2 ≠ none) := by
  constructor
  · intro h
    by_cases hn : df_name = ""
    · simp [write_rdata, hn]
    · cases dfo with
      | pdDataFrame d =>
        cases path with
        | pyStrObj s => rcases h with h | h | h <;> simp_all [isDataFrameObj, isStrObj]
        | pdDataFrame d2 => simp [write_rdata, hn]
        | otherObj id => simp [write_rdata, hn]
      | pyStrObj s => simp [write_rdata, hn]
      | otherObj id => simp [write_rdata, hn]
  · intro h
    cases dfo with
    | pdDataFrame d =>
      cases path with
      | pyStrObj s => rcases h with h | h <;> simp_all [isDataFrameObj, isStrObj]
      | pdDataFrame d2 => simp [write_rds]
      | otherObj id => simp [write_rds]
    | pyStrObj s => simp [write_rds]
    | otherObj id => simp [write_rds]

/-- Witness for C8: an empty name, a non-DataFrame table and a non-string
path. -/
theorem c8_validation_before_writer_witness :
    ((write_rdata (fun _ => true) (PyObj.otherObj 0) (PyObj.otherObj 1) "" "%Y" "%H").1 = [] ∧
     (write_rdata (fun _ => true) (PyObj.otherObj 0) (PyObj.otherObj 1) "" "%Y" "%H").2 ≠ none) ∧
    ((write_rds (fun _ => true) (PyObj.otherObj 0) (PyObj.otherObj 1) "%Y" "%H").1 = [] ∧
     (write_rds (fun _ => true) (PyObj.otherObj 0) (PyObj.otherObj 1) "%Y" "%H").2 ≠ none) :=
  ⟨(c8_validation_before_writer (fun _ => true) (PyObj.otherObj 0) (PyObj.otherObj 1)
      "" "%Y" "%H").1 (Or.inl rfl),
   (c8_validation_before_writer (fun _ => true) (PyObj.otherObj 0) (PyObj.otherObj 1)
      "" "%Y" "%H").2 (Or.inl rfl)⟩

theorem addColumnLoop_spec (w : Oracle) (lt : List (String × String)) :
    ∀ (ns : List String) (full : List WriterCall),
      specAddCols lt ns = .ok full →
      (addColumnLoop w lt ns).1 <+: full ∧
      ((addColumnLoop w lt ns).2 = none → (addColumnLoop w lt ns).1 = full) := by
  intro ns
  induction ns with
  | nil =>
    intro full h
    simp only [specAddCols, Except.ok.injEq] at h
    subst h
    exact ⟨⟨[], rfl⟩, fun _ => rfl⟩
  | cons n rest ih =>
    intro full h
    simp only [specAddCols] at h
    cases hg : odGet n lt with
    | none => rw [hg] at h; simp at h
    | some ty =>
      rw [hg] at h
      cases hr : specAddCols lt rest with
      | error e => rw [hr] at h; simp at h
      | ok cs =>
        rw [hr] at h
        simp only [Except.ok.injEq] at h
        subst h
        by_cases hw : w (WriterCall.addColumn n ty)
        · obtain ⟨⟨t, ht⟩, hcomp⟩ := ih cs hr
          constructor
          · refine ⟨t, ?_⟩
            simp only [addColumnLoop, hg, hw, if_true, List.cons_append,
              List.cons.injEq, true_and]
            exact ht
          · intro h2
            simp only [addColumnLoop, hg, hw, if_true] at h2 ⊢
            rw [hcomp h2]
        · constructor
          · exact ⟨cs, by simp [addColumnLoop, hg, hw]⟩
          · intro h2; simp [addColumnLoop, hg, hw] at h2

theorem columnLoop_spec (w : Oracle) (pt lt : List (String × String)) (hm : List Bool)
    (dateformat datetimeformat : String) :
    ∀ (cols : List Column) (idx : Nat) (full : List WriterCall),
      specInserts pt lt hm dateformat datetimeformat cols idx = .ok full →
      (columnLoop w pt lt hm dateformat datetimeformat cols idx).1 <+: full ∧
      ((columnLoop w pt lt hm dateformat datetimeformat cols idx).2 = none →
        (columnLoop w pt lt hm dateformat datetimeformat cols idx).1 = full) := by
  intro cols
  induction cols with
  | nil =>
    intro idx full h
    simp only [specInserts, Except.ok.injEq] at h
    subst h
    exact ⟨⟨[], rfl⟩, fun _ => rfl⟩
  | cons c rest ih =>
    intro idx full h
    simp only [specInserts] at h
    cases h1 : odGet c.name pt with
    | none => simp only [h1] at h; exact Except.noConfusion h
    | some pty =>
      simp only [h1] at h
      cases h2 : transform_data c.values pty (hm.getD idx false) dateformat datetimeformat with
      | error e => simp only [h2] at h; exact Except.noConfusion h
      | ok tcol =>
        simp only [h2] at h
        cases h3 : odGet c.name lt with
        | none => simp only [h3] at h; exact Except.noConfusion h
        | some lty =>
          simp only [h3] at h
          cases h4 : specInserts pt lt hm dateformat datetimeformat rest (idx + 1) with
          | error e => simp only [h4] at h; exact Except.noConfusion h
          | ok cs =>
            simp only [h4, Except.ok.injEq] at h
            subst h
            obtain ⟨hpre0, hc0⟩ := tryCalls_spec w (insertCallsFor idx lty tcol)
            cases h5 : (tryCalls w (insertCallsFor idx lty tcol)).2 with
            | some m =>
              have htr : (columnLoop w pt lt hm dateformat datetimeformat (c :: rest) idx).1 =
                  (tryCalls w (insertCallsFor idx lty tcol)).1 := by
                simp only [columnLoop, h1, h2, h3, h5]
              have her : (columnLoop w pt lt hm dateformat datetimeformat (c :: rest) idx).2 =
                  some m := by
                simp only [columnLoop, h1, h2, h3, h5]
              constructor
              · rw [htr]; exact listPre_extend cs hpre0
              · intro hnone; rw [her] at hnone; exact Option.noConfusion hnone
            | none =>
              have heq : (tryCalls w (insertCallsFor idx lty tcol)).1 =
                  insertCallsFor idx lty tcol := hc0 h5
              obtain ⟨hpre1, hc1⟩ := ih (idx + 1) cs h4
              have htr : (columnLoop w pt lt hm dateformat datetimeformat (c :: rest) idx).1 =
                  (tryCalls w (insertCallsFor idx lty tcol)).1 ++
                  (columnLoop w pt lt hm dateformat datetimeformat rest (idx + 1)).1 := by
                simp only [columnLoop, h1, h2, h3, h5]
              have her : (columnLoop w pt lt hm dateformat datetimeformat (c :: rest) idx).2 =
                  (columnLoop w pt lt hm dateformat datetimeformat rest (idx + 1)).2 := by
                simp only [columnLoop, h1, h2, h3, h5]
              constructor
              · rw [htr, heq]; exact listPre_mono _ hpre1
              · intro hnone
                rw [her] at hnone
                rw [htr, heq, hc1 hnone]

/-- C7: the write orchestrator issues Storage Writer calls in exactly the
specified order — `open`, `set_row_count` with the table's row count,
`set_table_name`, one `add_column` per column in column order, then per
column one `insert_value` per row at the original row/column indices,
then `close` — and a failure at any step aborts everything after it: the
issued trace is always an in-order prefix of the full sequence, and
equals it exactly when no step failed. -/
theorem c7_write_r_follows_spec_order (w : Oracle) (path fileFormat : String)
    (df : DataFrame) (df_name dateformat datetimeformat : String)
    (full : List WriterCall)
    (hspec : specWriterSequence df path fileFormat df_name dateformat datetimeformat =
      .ok full) :
    (write_r w path fileFormat df df_name dateformat datetimeformat).trace <+: full ∧
    ((write_r w path fileFormat df df_name dateformat datetimeformat).err = none →
      (write_r w path fileFormat df df_name dateformat datetimeformat).trace = full) := by
  simp only [specWriterSequence] at hspec
  cases hg : get_pyreadr_column_types df with
  | error e => simp only [hg] at hspec; exact Except.noConfusion hspec
  | ok p =>
    obtain ⟨pt, hmv⟩ := p
    simp only [hg] at hspec
    cases hmap : pyreadr_types_to_librdata_types pt with
    | error e => simp only [hmap] at hspec; exact Except.noConfusion hspec
    | ok lt =>
      simp only [hmap] at hspec
      cases hadd : specAddCols lt (df.cols.map fun c => c.name) with
      | error e => simp only [hadd] at hspec; exact Except.noConfusion hspec
      | ok addCalls =>
        simp only [hadd] at hspec
        cases hins : specInserts pt lt hmv dateformat datetimeformat df.cols 0 with
        | error e => simp only [hins] at hspec; exact Except.noConfusion hspec
        | ok insCalls =>
          simp only [hins, Except.ok.injEq] at hspec
          subst hspec
          obtain ⟨hpre1, hc1⟩ := tryCalls_spec w
            [WriterCall.openW path fileFormat, WriterCall.setRowCount (dfShape0 df),
             WriterCall.setTableName df_name]
          cases he1 : (tryCalls w
              [WriterCall.openW path fileFormat, WriterCall.setRowCount (dfShape0 df),
               WriterCall.setTableName df_name]).2 with
          | some m =>
            have htr : (write_r w path fileFormat df df_name dateformat datetimeformat).trace =
                (tryCalls w
                  [WriterCall.openW path fileFormat, WriterCall.setRowCount (dfShape0 df),
                   WriterCall.setTableName df_name]).1 := by
              simp only [write_r, hg, hmap, he1]
            have her : (write_r w path fileFormat df df_name dateformat datetimeformat).err =
                some m := by
              simp only [write_r, hg, hmap, he1]
            constructor
            · rw [htr]
              exact listPre_extend _ (listPre_extend _ (listPre_extend _ hpre1))
            · intro hnone; rw [her] at hnone; exact Option.noConfusion hnone
          | none =>
            have heq1 := hc1 he1
            obtain ⟨hpre2, hc2⟩ := addColumnLoop_spec w lt
              (df.cols.map fun c => c.name) addCalls hadd
            cases he2 : (addColumnLoop w lt (df.cols.map fun c => c.name)).2 with
            | some m =>
              have htr : (write_r w path fileFormat df df_name dateformat datetimeformat).trace =
                  (tryCalls w
                    [WriterCall.openW path fileFormat, WriterCall.setRowCount (dfShape0 df),
                     WriterCall.setTableName df_name]).1 ++
                  (addColumnLoop w lt (df.cols.map fun c => c.name)).1 := by
                simp only [write_r, hg, hmap, he1, he2]
              have her : (write_r w path fileFormat df df_name dateformat datetimeformat).err =
                  some m := by
                simp only [write_r, hg, hmap, he1, he2]
              constructor
              · rw [htr, heq1]
                exact listPre_extend _ (listPre_extend _ (listPre_mono _ hpre2))
              · intro hnone; rw [her] at hnone; exact Option.noConfusion hnone
            | none =>
              have heq2 := hc2 he2
              obtain ⟨hpre3, hc3⟩ := columnLoop_spec w pt lt hmv dateformat
                datetimeformat df.cols 0 insCalls hins
              cases he3 : (columnLoop w pt lt hmv dateformat datetimeformat df.cols 0).2 with
              | some m =>
                have htr : (write_r w path fileFormat df df_name dateformat datetimeformat).trace =
                    ((tryCalls w
                      [WriterCall.openW path fileFormat, WriterCall.setRowCount (dfShape0 df),
                       WriterCall.setTableName df_name]).1 ++
                    (addColumnLoop w lt (df.cols.map fun c => c.name)).1) ++
                    (columnLoop w pt lt hmv dateformat datetimeformat df.cols 0).1 := by
                  simp only [write_r, hg, hmap, he1, he2, he3]
                have her : (write_r w path fileFormat df df_name dateformat datetimeformat).err =
                    some m := by
                  simp only [write_r, hg, hmap, he1, he2, he3]
                constructor
                · rw [htr, heq1, heq2]
                  exact listPre_extend _ (listPre_mono _ hpre3)
                · intro hnone; rw [her] at hnone; exact Option.noConfusion hnone
              | none =>
                have heq3 := hc3 he3
                obtain ⟨hpre4, hc4⟩ := tryCalls_spec w [WriterCall.closeW]
                have htr : (write_r w path fileFormat df df_name dateformat datetimeformat).trace =
                    (((tryCalls w
                      [WriterCall.openW path fileFormat, WriterCall.setRowCount (dfShape0 df),
                       WriterCall.setTableName df_name]).1 ++
                    (addColumnLoop w lt (df.cols.map fun c => c.name)).1) ++
                    (columnLoop w pt lt hmv dateformat datetimeformat df.cols 0).1) ++
                    (tryCalls w [WriterCall.closeW]).1 := by
                  simp only [write_r, hg, hmap, he1, he2, he3]
                have her : (write_r w path fileFormat df df_name dateformat datetimeformat).err =
                    (tryCalls w [WriterCall.closeW]).2 := by
                  simp only [write_r, hg, hmap, he1, he2, he3]
                constructor
                · rw [htr, heq1, heq2, heq3]
                  exact listPre_mono _ hpre4
                · intro hnone
                  rw [her] at hnone
                  rw [htr, heq1, heq2, heq3, hc4 hnone]

/-- Witness for C7: a one-column `int32` frame and an all-success writer;
the issued trace is the complete specified sequence. -/
theorem c7_write_r_follows_spec_order_witness :
    specWriterSequence ⟨[⟨"a", DType.int32, [PyVal.npInt32V 1, PyVal.npInt32V 2]⟩]⟩
        "f.rds" "rds" "" "%Y-%m-%d" "%H:%M" =
      Except.ok
        [WriterCall.openW "f.rds" "rds", WriterCall.setRowCount 2,
         WriterCall.setTableName "", WriterCall.addColumn "a" "INTEGER",
         WriterCall.insertValue 0 0 (PyVal.npInt32V 1) "INTEGER",
         WriterCall.insertValue 1 0 (PyVal.npInt32V 2) "INTEGER",
         WriterCall.closeW] ∧
    (write_r (fun _ => true) "f.rds" "rds"
        ⟨[⟨"a", DType.int32, [PyVal.npInt32V 1, PyVal.npInt32V 2]⟩]⟩
        "" "%Y-%m-%d" "%H:%M").trace =
      [WriterCall.openW "f.rds" "rds", WriterCall.setRowCount 2,
       WriterCall.setTableName "", WriterCall.addColumn "a" "INTEGER",
       WriterCall.insertValue 0 0 (PyVal.npInt32V 1) "INTEGER",
       WriterCall.insertValue 1 0 (PyVal.npInt32V 2) "INTEGER",
       WriterCall.closeW] :=
  ⟨rfl,
   (c7_write_r_follows_spec_order (fun _ => true) "f.rds" "rds"
      ⟨[⟨"a", DType.int32, [PyVal.npInt32V 1, PyVal.npInt32V 2]⟩]⟩ "" "%Y-%m-%d" "%H:%M"
      [WriterCall.openW "f.rds" "rds", WriterCall.setRowCount 2,
       WriterCall.setTableName "", WriterCall.addColumn "a" "INTEGER",
       WriterCall.insertValue 0 0 (PyVal.npInt32V 1) "INTEGER",
       WriterCall.insertValue 1 0 (PyVal.npInt32V 2) "INTEGER",
       WriterCall.closeW] rfl).2 rfl⟩

end Pyreadr
